import Mathlib

/-!
Verification of the `net_async` connection negotiator and session orchestrator
(`src/net_async/handlers.py`).

The external transport collaborator (netmiko) is modelled as an environment
that fixes the outcome of every external call: `SSHDetect(...).autodetect()`,
`ConnectHandler(...)`, `session.enable()`, and each `send_command(...)`.
Every outcome is either a returned value or a raised exception drawn from the
exception classes the handlers of `Connection.__init__` distinguish.
The negotiation code itself (branching, flag updates, handler routing) is
translated statement by statement from the source.
-/

namespace NetAsync

/-- Exception classes distinguished by the handlers in `Connection.__init__`.
`otherExc` stands for any exception matched only by the final
`except Exception` clause (for instance a `TypeError` raised while indexing
a raw-string command output). -/
inductive Exc
  | valueError
  | eofError
  | connectionRefused
  | netmikoAuth
  | netmikoTimeout
  | sshException
  | timeoutError
  | connectionReset
  | osError
  | otherExc
deriving Repr, DecidableEq

/-- Python `isinstance(e, OSError)`: `ConnectionRefusedError`,
`ConnectionResetError` and `TimeoutError` are `OSError` subclasses. -/
def isOSErr : Exc → Bool
  | .connectionRefused => true
  | .connectionReset => true
  | .timeoutError => true
  | .osError => true
  | _ => false

/-- Membership in the tuple of `except (ValueError, EOFError)`
(handlers.py lines 150 and 155). -/
def inDetectTuple : Exc → Bool
  | .valueError => true
  | .eofError => true
  | _ => false

/-- Membership in the tuple of the handler at line 162:
`except (ConnectionRefusedError, ValueError, NetmikoAuthenticationException,
NetmikoTimeoutException, SSHException)`.  The two netmiko exceptions are
`SSHException` subclasses, so `sshException` membership also covers them. -/
def inSSHFallTuple : Exc → Bool
  | .connectionRefused => true
  | .valueError => true
  | .netmikoAuth => true
  | .netmikoTimeout => true
  | .sshException => true
  | _ => false

/-- Unreachable-class errors in the sense of the error taxonomy:
connection refused, timeout (netmiko or builtin), connection reset,
or a host-level `OSError`. -/
def isUnreachable : Exc → Bool
  | .connectionRefused => true
  | .netmikoTimeout => true
  | .timeoutError => true
  | .connectionReset => true
  | .osError => true
  | _ => false

/-- Result of an external call: a returned value or a raised exception. -/
inductive Res (α : Type)
  | ok (a : α)
  | err (e : Exc)
deriving Repr, DecidableEq

/-- Fields of a structured (TextFSM-parsed) command output record, i.e. the
keys the source reads from `showver[0]`.  A parsed record is assumed
shape-complete (TextFSM succeeded); malformed raw outputs are the separate
`CmdText` constructors below. -/
structure SVFields where
  hostname : String
  version : String
  rommon : String
  hardware : String
  serial : String
  os : String
  system_name : String
deriving Repr, DecidableEq

/-- A command output as inspected by the source: raw text containing
`Failed`, raw text containing `Incorrect`, raw text with neither marker
(on which `showver[0][key]` raises a `TypeError`), or a parsed record. -/
inductive CmdText
  | failedText
  | incorrectText
  | otherText
  | parsedOut (f : SVFields)
deriving Repr, DecidableEq

/-- Status of `self.session`: still `None`, a live connection, or a
connection object that has been disconnected. -/
inductive Sess
  | noSess
  | live
  | closed
deriving Repr, DecidableEq

/-- The mutable attributes of a `Connection` instance, together with the
mutable entries of `self.device` (`device_type` is merged with
`self.devicetype`, which the source always assigns in lockstep, and
`secret` is the optional `self.device['secret']` entry).  The immutable
credentials are carried along because the telnet steps read them. -/
structure ConnState where
  ip_address : String
  username : String
  password : String
  enable_pw : String
  con_type : Option String
  exc : String
  connectivity : Bool
  authentication : Bool
  authorization : Bool
  privileged : Bool
  enable : Bool
  devicetype : String
  secret : Option String
  sess : Sess
  hostname : String
  software_version : String
  model : String
  serial : String
  rommon_version : String
deriving Repr, DecidableEq

/-- The constructor keyword arguments after `arg(...)` resolution. -/
structure Args where
  devicetype : String
  enable : Bool
  enable_pw : String
  ip_address : String
  username : String
  password : String
deriving Repr, DecidableEq

/-- The keyword-argument dictionary passed to `Connection(**kwargs)`:
each recognised key is present or absent. -/
structure Kwargs where
  device_type : Option String
  enable : Option Bool
  enable_pw : Option String
  ip_address : Option String
  username : Option String
  password : Option String
deriving Repr, DecidableEq

/-- Argument resolution of `Connection.__init__` (lines 37-58): optional
keys fall back to defaults, the three required keys raise
`MissingArgument(key)` when absent.  `Except.error k` models
`MissingArgument` escaping the constructor with key name `k`. -/
def parseArgs (k : Kwargs) : Except String Args :=
  let devicetype := k.device_type.getD "autodetect"
  let enable := k.enable.getD false
  let enable_pw := k.enable_pw.getD ""
  match k.ip_address with
  | none => .error "ip_address"
  | some ip =>
    match k.username with
    | none => .error "username"
    | some u =>
      match k.password with
      | none => .error "password"
      | some p =>
        .ok { devicetype := devicetype, enable := enable, enable_pw := enable_pw,
              ip_address := ip, username := u, password := p }

/-- Does the second character list start with the first? -/
def headMatches : List Char → List Char → Bool
  | [], _ => true
  | _ :: _, [] => false
  | a :: as, b :: bs => a == b && headMatches as bs

/-- Does the first character list occur inside the second? -/
def containsSub : List Char → List Char → Bool
  | pat, [] => headMatches pat []
  | pat, c :: rest => headMatches pat (c :: rest) || containsSub pat rest

/-- Python `pat in s` substring test on strings. -/
def strContains (s pat : String) : Bool := containsSub pat.toList s.toList

/-- The attribute values established by lines 56-81 of the constructor,
before the negotiation chain starts. -/
def initState (a : Args) : ConnState :=
  { ip_address := a.ip_address
    username := a.username
    password := a.password
    enable_pw := a.enable_pw
    con_type := none
    exc := "None"
    connectivity := false
    authentication := false
    authorization := false
    privileged := false
    enable := a.enable
    devicetype := a.devicetype
    secret := if a.enable then some a.enable_pw else none
    sess := .noSess
    hostname := ""
    software_version := ""
    model := ""
    serial := ""
    rommon_version := "" }

/-- Outcomes of the external calls one `device_check(device)` invocation can
make.  `connect` and `enableCmd` either succeed (`none`) or raise; each
command either returns an output or raises.  `showRun` returns whether the
output contains the `Invalid input detected` signature; `showInventory`
returns the `Chassis` entry (`pid`, `sn`) when one exists. -/
structure AttemptEnv where
  connect : Option Exc
  enableCmd : Option Exc
  showVersion : Res CmdText
  showSysinfo : Res CmdText
  showInventory : Res (Option (String × String))
  showRun : Res Bool
deriving Repr, DecidableEq

/-- `inventory(showver)` (lines 85-102): device-family-specific extraction.
IOS-like families read fields from the parsed record; `cisco_nxos` reads the
OS version and then issues `show inventory`, which may itself raise. -/
def inventory (a : AttemptEnv) (f : SVFields) (s : ConnState) : ConnState × Option Exc :=
  if strContains s.devicetype "cisco_ios" then
    ({ s with software_version := f.version, rommon_version := f.rommon,
              model := f.hardware, serial := f.serial }, none)
  else if s.devicetype = "cisco_nxos" then
    let s1 := { s with software_version := f.os }
    match a.showInventory with
    | .err e => (s1, some e)
    | .ok none => (s1, none)
    | .ok (some (pid, sn)) => ({ s1 with serial := sn, model := pid }, none)
  else (s, none)

/-- `device_check(device)` (lines 104-142).  The `while True:` loop body ends
in `break` on every control path, so the loop performs exactly one
iteration; the translation is therefore straight-line.  The second
component is the exception propagating out of the call (`none` when it
returns normally); all attribute mutations performed before a raise are
kept, as in Python. -/
def device_check (a : AttemptEnv) (s : ConnState) : ConnState × Option Exc :=
  if s.enable then
    match a.connect with
    | some e => (s, some e)
    | none =>
      let s1 := { s with sess := Sess.live }
      match a.enableCmd with
      | some e => (s1, some e)
      | none =>
        match a.showVersion with
        | .err e => (s1, some e)
        | .ok .failedText => (s1, none)
        | .ok (.parsedOut f) =>
          let s2 := { s1 with authorization := true, hostname := f.hostname }
          match a.showRun with
          | .err e => (s2, some e)
          | .ok invalid => if invalid then (s2, none) else ({ s2 with privileged := true }, none)
        | .ok _ =>
          ({ s1 with authorization := true }, some .otherExc)
  else
    match a.connect with
    | some e => (s, some e)
    | none =>
      let s1 := { s with sess := Sess.live }
      match a.showVersion with
      | .err e => (s1, some e)
      | .ok .failedText => (s1, none)
      | .ok .incorrectText =>
        match a.showSysinfo with
        | .err e => (s1, some e)
        | .ok (.parsedOut f) =>
          let s2 := { s1 with authorization := true, privileged := true,
                              hostname := f.system_name }
          inventory a f s2
        | .ok _ =>
          ({ s1 with authorization := true, privileged := true }, some .otherExc)
      | .ok .otherText =>
        ({ s1 with authorization := true }, some .otherExc)
      | .ok (.parsedOut f) =>
        let s2 := { s1 with authorization := true, hostname := f.hostname }
        let inv := inventory a f s2
        match inv.2 with
        | some e => (inv.1, some e)
        | none =>
          match a.showRun with
          | .err e => (inv.1, some e)
          | .ok invalid =>
            if invalid then
              ({ inv.1 with enable := true, secret := some inv.1.enable_pw,
                            sess := Sess.closed }, none)
            else ({ inv.1 with privileged := true }, none)

/-- The environment of one whole negotiation: the autodetection outcome and
an `AttemptEnv` for each of the five possible `device_check` slots. -/
structure Env where
  autodetect : Res String
  ssh1 : AttemptEnv
  ssh2 : AttemptEnv
  ssh3 : AttemptEnv
  telnet1 : AttemptEnv
  telnet2 : AttemptEnv
deriving Repr, DecidableEq

/-- The observable result of `Connection.__init__`: the terminal attribute
state, the exception the constructor itself raised (if any), one outcome
slot per fallback step (`none` = step never attempted, `some none` = step
completed, `some (some e)` = step raised `e`), and the enable-secret value
the telnet steps installed before connecting. -/
structure InitRes where
  s : ConnState
  raised : Option Exc
  o1 : Option (Option Exc)
  o2 : Option (Option Exc)
  o3 : Option (Option Exc)
  o4 : Option (Option Exc)
  o5 : Option (Option Exc)
  t1secret : Option String
  t2secret : Option String
deriving Repr, DecidableEq

/-- Fallback step 1 (lines 146-149): autodetect, overwrite the device type
with the detected value, then `device_check`. -/
def sshDetectStep (env : Env) (s : ConnState) : ConnState × Option Exc :=
  match env.autodetect with
  | .err e => (s, some e)
  | .ok dt => device_check env.ssh1 { s with devicetype := dt }

/-- Result of the SSH fallback chain: state, exception escaping the chain,
and the outcome of each of the three step slots (`none` = never attempted,
`some none` = completed, `some (some e)` = raised `e`). -/
structure SSHOut where
  s : ConnState
  err : Option Exc
  o1 : Option (Option Exc)
  o2 : Option (Option Exc)
  o3 : Option (Option Exc)
deriving Repr, DecidableEq

/-- The SSH fallback chain (lines 145-158): step 1, then steps 2 and 3
forced to `cisco_ios`, each tried only when the previous step raised an
exception matched by `except (ValueError, EOFError)`. -/
def sshChain (env : Env) (s : ConnState) : SSHOut :=
  let p1 := sshDetectStep env s
  match p1.2 with
  | none => ⟨p1.1, none, some none, none, none⟩
  | some e1 =>
    if inDetectTuple e1 then
      let p2 := device_check env.ssh2 { p1.1 with devicetype := "cisco_ios" }
      match p2.2 with
      | none => ⟨p2.1, none, some (some e1), some none, none⟩
      | some e2 =>
        if inDetectTuple e2 then
          let p3 := device_check env.ssh3 { p2.1 with devicetype := "cisco_ios" }
          match p3.2 with
          | none => ⟨p3.1, none, some (some e1), some (some e2), some none⟩
          | some e3 => ⟨p3.1, some e3, some (some e1), some (some e2), some (some e3)⟩
        else ⟨p2.1, some e2, some (some e1), some (some e2), none⟩
    else ⟨p1.1, some e1, some (some e1), none, none⟩

/-- One telnet attempt (lines 166-172 and 174-180): force
`cisco_ios_telnet`, install the login password as the enable secret,
`device_check`, and on normal return record authentication, connectivity
and the transport type. -/
def telnetAttempt (a : AttemptEnv) (s : ConnState) : ConnState × Option Exc :=
  let p := device_check a { s with devicetype := "cisco_ios_telnet", secret := some s.password }
  match p.2 with
  | some e => (p.1, some e)
  | none =>
    ({ p.1 with authentication := true, connectivity := true, con_type := some "TELNET" }, none)

/-- The handlers of the telnet `try` (lines 181-193), tried in source order;
an exception none of them matches propagates out of the constructor. -/
def telnetHandlers (e : Exc) (s : ConnState) : ConnState × Option Exc :=
  match e with
  | .netmikoAuth => ({ s with connectivity := true, exc := "NetmikoAuthenticationException" }, none)
  | .netmikoTimeout => ({ s with exc := "NetmikoTimeoutException" }, none)
  | .connectionRefused => ({ s with exc := "ConnectionRefusedError" }, none)
  | .valueError => ({ s with exc := "ValueError" }, none)
  | .timeoutError => ({ s with exc := "TimeoutError" }, none)
  | .connectionReset => ({ s with exc := "ConnectionResetError" }, none)
  | e1 => (s, some e1)

/-- Result of the telnet fallback: state, exception escaping the fallback
(which then escapes the constructor), the two telnet step outcomes, and the
enable-secret value each attempt installed before connecting. -/
structure TelOut where
  s : ConnState
  err : Option Exc
  o4 : Option (Option Exc)
  o5 : Option (Option Exc)
  t1 : Option String
  t2 : Option String
deriving Repr, DecidableEq

/-- The telnet fallback (lines 164-193): attempt 1, a second attempt only
when the first raised `NetmikoAuthenticationException`, then the handler
chain. -/
def telnetPhase (env : Env) (s : ConnState) : TelOut :=
  let p1 := telnetAttempt env.telnet1 s
  match p1.2 with
  | none => ⟨p1.1, none, some none, none, some s.password, none⟩
  | some .netmikoAuth =>
    let p2 := telnetAttempt env.telnet2 p1.1
    match p2.2 with
    | none =>
      ⟨p2.1, none, some (some .netmikoAuth), some none, some s.password, some p1.1.password⟩
    | some e2 =>
      let q := telnetHandlers e2 p2.1
      ⟨q.1, q.2, some (some .netmikoAuth), some (some e2), some s.password, some p1.1.password⟩
  | some e1 =>
    let q := telnetHandlers e1 p1.1
    ⟨q.1, q.2, some (some e1), none, some s.password, none⟩

/-- `Connection.__init__` from the start of the negotiation (line 144) to
the end of the constructor, given resolved arguments and an environment.
The SSH chain's escaping exception is routed by the handlers of the outer
`try` in source order: the tuple at line 162 enters the telnet fallback,
`except OSError` (line 194) records `OSError`, the `except
ConnectionResetError` at line 196 is shadowed by the `OSError` handler, and
`except Exception` (line 198) only logs.  An exception escaping the telnet
handlers propagates out of the constructor (`raised`). -/
def Connection_init (args : Args) (env : Env) : InitRes :=
  let c := sshChain env (initState args)
  match c.err with
  | none =>
    { s := { c.s with authentication := true, connectivity := true, con_type := some "SSH" }
      raised := none, o1 := c.o1, o2 := c.o2, o3 := c.o3, o4 := none, o5 := none
      t1secret := none, t2secret := none }
  | some e =>
    if inSSHFallTuple e then
      let t := telnetPhase env c.s
      { s := t.s, raised := t.err, o1 := c.o1, o2 := c.o2, o3 := c.o3
        o4 := t.o4, o5 := t.o5, t1secret := t.t1, t2secret := t.t2 }
    else if isOSErr e then
      { s := { c.s with exc := "OSError" }, raised := none
        o1 := c.o1, o2 := c.o2, o3 := c.o3, o4 := none, o5 := none
        t1secret := none, t2secret := none }
    else
      { s := c.s, raised := none
        o1 := c.o1, o2 := c.o2, o3 := c.o3, o4 := none, o5 := none
        t1secret := none, t2secret := none }

/-- Result of `Connection.send_config_set` (lines 214-224): with
`self.session is None` the method body is `pass` (returns `None`);
otherwise it raises `NoConfigPriv` when not privileged, else returns the
transport's output for the command list. -/
inductive ConfigResult (α : Type)
  | noSession
  | noPrivErr
  | ran (out : α)
deriving Repr, DecidableEq

/-- `Connection.send_config_set(config_set)`, with the transport's
`session.send_config_set` modelled as the function `tOut`. -/
def send_config_set (s : ConnState) (tOut : List String → String)
    (config_set : List String) : ConfigResult String :=
  match s.sess with
  | .noSess => .noSession
  | _ => if !s.privileged then .noPrivErr else .ran (tOut config_set)

/-- Behaviour of one invocation of the caller-supplied function: a normal
return, one of the two recognised signals (`ForceSessionRetry`,
`NoConfigPriv`), or any other raised exception. -/
inductive FnRes (α : Type)
  | ok (out : α)
  | forceRetry
  | noPriv
  | err
deriving Repr, DecidableEq

/-- One iteration's worth of environment for the per-target loop in
`AsyncSessions.connection`: the negotiation environment of this pass's
`Connection(**args)` and what `function(session)` does on this pass. -/
structure LoopAttempt (α : Type) where
  env : Env
  fn : FnRes α
deriving Repr, DecidableEq

/-- The record appended to `successful_devices` and embedded in `outputs`
(lines 353-362). -/
structure SuccessRecord where
  ip_address : String
  connection_type : Option String
  hostname : String
  model : String
  rommon : String
  software_version : String
  serial : String
  privileged : Bool
deriving Repr, DecidableEq

/-- The record appended to `failed_devices` (lines 386-395). -/
structure FailRecord where
  ip_address : String
  connection_type : Option String
  device_type : String
  connectivity : Bool
  authentication : Bool
  authorization : Bool
  privileged : Bool
  exc : String
deriving Repr, DecidableEq

/-- Builds the success record from a terminal session state. -/
def successRecord (ip : String) (s : ConnState) : SuccessRecord :=
  { ip_address := ip, connection_type := s.con_type, hostname := s.hostname,
    model := s.model, rommon := s.rommon_version,
    software_version := s.software_version, serial := s.serial,
    privileged := s.privileged }

/-- Builds the failure record from a terminal session state. -/
def failRecord (ip : String) (s : ConnState) : FailRecord :=
  { ip_address := ip, connection_type := s.con_type, device_type := s.devicetype,
    connectivity := s.connectivity, authentication := s.authentication,
    authorization := s.authorization, privileged := s.privileged, exc := s.exc }

/-- State of one target's `connection(ip_address)` task together with its
contribution to the three shared result collections.  `done` records
whether the `while True:` loop has executed its `break`. -/
structure LoopState (α : Type) where
  no_config_priv : Bool
  outputs : List (SuccessRecord × α)
  successful : List SuccessRecord
  failed : List FailRecord
  done : Bool
deriving Repr, DecidableEq

/-- The target loop state before the first iteration. -/
def initLoop (α : Type) : LoopState α :=
  { no_config_priv := false, outputs := [], successful := [], failed := [], done := false }

/-- One iteration of the `while True:` loop of `connection(ip_address)`
(lines 349-401).  A raising constructor, a `ForceSessionRetry` signal, a
`NoConfigPriv` signal, and any unrecognised exception from
`function(session)` all leave the loop running (the last two adjusting
only local state); a normal return or the failure branch appends records
and breaks. -/
def connectionStep (args : Args) (ip : String) (a : LoopAttempt α)
    (st : LoopState α) : LoopState α :=
  let r := Connection_init args a.env
  match r.raised with
  | some _ => st
  | none =>
    if r.s.authorization && !st.no_config_priv then
      match a.fn with
      | .ok out =>
        { st with outputs := st.outputs ++ [(successRecord ip r.s, out)],
                  successful := st.successful ++ [successRecord ip r.s], done := true }
      | .forceRetry => st
      | .noPriv => { st with no_config_priv := true }
      | .err => st
    else
      let s1 := if st.no_config_priv then { r.s with exc := "NoConfigPriv" } else r.s
      { st with failed := st.failed ++ [failRecord ip s1], done := true }

/-- Runs the per-target loop over a finite trace of iteration environments,
stopping as soon as an iteration breaks. -/
def runConnection (args : Args) (ip : String) :
    List (LoopAttempt α) → LoopState α → LoopState α
  | [], st => st
  | a :: rest, st =>
    if st.done then st
    else runConnection args ip rest (connectionStep args ip a st)

/-- The exception-class name string recorded by the handlers for each
modelled exception (the name `str(type(e))` would show). -/
def excName : Exc → String
  | .valueError => "ValueError"
  | .eofError => "EOFError"
  | .connectionRefused => "ConnectionRefusedError"
  | .netmikoAuth => "NetmikoAuthenticationException"
  | .netmikoTimeout => "NetmikoTimeoutException"
  | .sshException => "SSHException"
  | .timeoutError => "TimeoutError"
  | .connectionReset => "ConnectionResetError"
  | .osError => "OSError"
  | .otherExc => "Exception"

/-- The `failure_kind` strings of the Unreachable family
(connection refused, timeout, reset, host-level OS error). -/
def unreachableStrs : List String :=
  ["NetmikoTimeoutException", "ConnectionRefusedError", "TimeoutError",
   "ConnectionResetError", "OSError"]

@[simp]
theorem inventory_authentication (a : AttemptEnv) (f : SVFields) (s : ConnState) :
    (inventory a f s).1.authentication = s.authentication := by
  unfold inventory
  repeat' split
  all_goals first | rfl | simp

@[simp]
theorem inventory_connectivity (a : AttemptEnv) (f : SVFields) (s : ConnState) :
    (inventory a f s).1.connectivity = s.connectivity := by
  unfold inventory
  repeat' split
  all_goals first | rfl | simp

@[simp]
theorem inventory_authorization (a : AttemptEnv) (f : SVFields) (s : ConnState) :
    (inventory a f s).1.authorization = s.authorization := by
  unfold inventory
  repeat' split
  all_goals first | rfl | simp

@[simp]
theorem inventory_privileged (a : AttemptEnv) (f : SVFields) (s : ConnState) :
    (inventory a f s).1.privileged = s.privileged := by
  unfold inventory
  repeat' split
  all_goals first | rfl | simp

@[simp]
theorem inventory_exc (a : AttemptEnv) (f : SVFields) (s : ConnState) :
    (inventory a f s).1.exc = s.exc := by
  unfold inventory
  repeat' split
  all_goals first | rfl | simp

@[simp]
theorem inventory_password (a : AttemptEnv) (f : SVFields) (s : ConnState) :
    (inventory a f s).1.password = s.password := by
  unfold inventory
  repeat' split
  all_goals first | rfl | simp

@[simp]
theorem device_check_authentication (a : AttemptEnv) (s : ConnState) :
    (device_check a s).1.authentication = s.authentication := by
  unfold device_check
  repeat' split
  all_goals try rfl
  all_goals try simp_all
  all_goals split
  all_goals simp

@[simp]
theorem device_check_connectivity (a : AttemptEnv) (s : ConnState) :
    (device_check a s).1.connectivity = s.connectivity := by
  unfold device_check
  repeat' split
  all_goals try rfl
  all_goals try simp_all
  all_goals split
  all_goals simp

@[simp]
theorem device_check_exc (a : AttemptEnv) (s : ConnState) :
    (device_check a s).1.exc = s.exc := by
  unfold device_check
  repeat' split
  all_goals try rfl
  all_goals try simp_all
  all_goals split
  all_goals simp

@[simp]
theorem device_check_password (a : AttemptEnv) (s : ConnState) :
    (device_check a s).1.password = s.password := by
  unfold device_check
  repeat' split
  all_goals try rfl
  all_goals try simp_all
  all_goals split
  all_goals simp

theorem device_check_pa (a : AttemptEnv) (s : ConnState)
    (h : s.privileged = true → s.authorization = true) :
    (device_check a s).1.privileged = true → (device_check a s).1.authorization = true := by
  unfold device_check
  repeat' split
  all_goals try rfl
  all_goals try simp_all
  all_goals split
  all_goals simp

@[simp]
theorem sshDetectStep_authentication (env : Env) (s : ConnState) :
    (sshDetectStep env s).1.authentication = s.authentication := by
  unfold sshDetectStep; split <;> simp

@[simp]
theorem sshDetectStep_connectivity (env : Env) (s : ConnState) :
    (sshDetectStep env s).1.connectivity = s.connectivity := by
  unfold sshDetectStep; split <;> simp

@[simp]
theorem sshDetectStep_exc (env : Env) (s : ConnState) :
    (sshDetectStep env s).1.exc = s.exc := by
  unfold sshDetectStep; split <;> simp

@[simp]
theorem sshDetectStep_password (env : Env) (s : ConnState) :
    (sshDetectStep env s).1.password = s.password := by
  unfold sshDetectStep; split <;> simp

theorem sshDetectStep_pa (env : Env) (s : ConnState)
    (h : s.privileged = true → s.authorization = true) :
    (sshDetectStep env s).1.privileged = true → (sshDetectStep env s).1.authorization = true := by
  unfold sshDetectStep; split
  · simpa using h
  · exact device_check_pa _ _ (by simpa using h)

theorem sshChain_flags (env : Env) (s : ConnState) :
    (sshChain env s).s.authentication = s.authentication ∧
    (sshChain env s).s.connectivity = s.connectivity ∧
    (sshChain env s).s.exc = s.exc ∧
    (sshChain env s).s.password = s.password := by
  simp only [sshChain]
  repeat' split
  all_goals simp_all

theorem sshChain_pa (env : Env) (s : ConnState)
    (h : s.privileged = true → s.authorization = true) :
    (sshChain env s).s.privileged = true → (sshChain env s).s.authorization = true := by
  have hp1 := sshDetectStep_pa env s h
  simp only [sshChain]
  repeat' split
  all_goals first
    | exact hp1
    | exact device_check_pa _ _ (by simpa using hp1)
    | exact device_check_pa _ _ (by simpa using device_check_pa _ _ (by simpa using hp1))

theorem sshChain_shape (env : Env) (s : ConnState) :
    (sshChain env s).o1.isSome = true ∧
    ((sshChain env s).o2.isSome = true ↔
      ∃ e, (sshChain env s).o1 = some (some e) ∧ inDetectTuple e = true) ∧
    ((sshChain env s).o3.isSome = true ↔
      ∃ e, (sshChain env s).o2 = some (some e) ∧ inDetectTuple e = true) ∧
    (∀ e, (sshChain env s).o1 = some (some e) → inDetectTuple e = false →
      (sshChain env s).err = some e ∧ (sshChain env s).o2 = none ∧
      (sshChain env s).o3 = none) ∧
    (∀ e, (sshChain env s).o2 = some (some e) → inDetectTuple e = false →
      (sshChain env s).err = some e ∧ (sshChain env s).o3 = none) ∧
    (∀ e, (sshChain env s).o3 = some (some e) → (sshChain env s).err = some e) ∧
    ((sshChain env s).err = none ↔
      ((sshChain env s).o1 = some none ∨ (sshChain env s).o2 = some none ∨
       (sshChain env s).o3 = some none)) ∧
    (∀ e, (sshChain env s).err = some e →
      ((sshChain env s).o3 = some (some e) ∨
       ((sshChain env s).o3 = none ∧ (sshChain env s).o2 = some (some e)) ∨
       ((sshChain env s).o3 = none ∧ (sshChain env s).o2 = none ∧
        (sshChain env s).o1 = some (some e)))) := by
  simp only [sshChain]
  repeat' split
  all_goals simp_all

/-- The exception classes matched by one of the telnet handler clauses
(lines 181-193). -/
def telnetHandled : Exc → Bool
  | .netmikoAuth => true
  | .netmikoTimeout => true
  | .connectionRefused => true
  | .valueError => true
  | .timeoutError => true
  | .connectionReset => true
  | _ => false

@[simp]
theorem telnetAttempt_exc (a : AttemptEnv) (s : ConnState) :
    (telnetAttempt a s).1.exc = s.exc := by
  simp only [telnetAttempt]
  split <;> simp

@[simp]
theorem telnetAttempt_password (a : AttemptEnv) (s : ConnState) :
    (telnetAttempt a s).1.password = s.password := by
  simp only [telnetAttempt]
  split <;> simp

theorem telnetAttempt_pa (a : AttemptEnv) (s : ConnState)
    (h : s.privileged = true → s.authorization = true) :
    (telnetAttempt a s).1.privileged = true → (telnetAttempt a s).1.authorization = true := by
  simp only [telnetAttempt]
  split
  · exact device_check_pa _ _ (by simpa using h)
  · simpa using device_check_pa _ _ (by simpa using h)

theorem telnetAttempt_ok (a : AttemptEnv) (s : ConnState)
    (h : (telnetAttempt a s).2 = none) :
    (telnetAttempt a s).1.authentication = true ∧
    (telnetAttempt a s).1.connectivity = true := by
  simp only [telnetAttempt] at h ⊢
  split at h <;> simp_all

theorem telnetAttempt_fail (a : AttemptEnv) (s : ConnState) (e : Exc)
    (h : (telnetAttempt a s).2 = some e) :
    (telnetAttempt a s).1.authentication = s.authentication ∧
    (telnetAttempt a s).1.connectivity = s.connectivity := by
  simp only [telnetAttempt] at h ⊢
  split at h <;> simp_all

@[simp]
theorem telnetHandlers_authentication (e : Exc) (s : ConnState) :
    (telnetHandlers e s).1.authentication = s.authentication := by
  cases e <;> simp [telnetHandlers]

@[simp]
theorem telnetHandlers_authorization (e : Exc) (s : ConnState) :
    (telnetHandlers e s).1.authorization = s.authorization := by
  cases e <;> simp [telnetHandlers]

@[simp]
theorem telnetHandlers_privileged (e : Exc) (s : ConnState) :
    (telnetHandlers e s).1.privileged = s.privileged := by
  cases e <;> simp [telnetHandlers]

@[simp]
theorem telnetHandlers_password (e : Exc) (s : ConnState) :
    (telnetHandlers e s).1.password = s.password := by
  cases e <;> simp [telnetHandlers]

theorem telnetHandlers_handled (e : Exc) (s : ConnState) (h : telnetHandled e = true) :
    (telnetHandlers e s).2 = none ∧ (telnetHandlers e s).1.exc = excName e := by
  cases e <;> simp_all [telnetHandlers, telnetHandled, excName]

theorem telnetHandlers_unhandled (e : Exc) (s : ConnState) (h : telnetHandled e = false) :
    telnetHandlers e s = (s, some e) := by
  cases e <;> simp_all [telnetHandlers, telnetHandled]

theorem telnetHandlers_conn_other (e : Exc) (s : ConnState) (h : e ≠ Exc.netmikoAuth) :
    (telnetHandlers e s).1.connectivity = s.connectivity := by
  cases e <;> simp_all [telnetHandlers]

theorem telnetHandlers_q (e : Exc) (s : ConnState)
    (h : s.authentication = true → s.connectivity = true) :
    (telnetHandlers e s).1.authentication = true → (telnetHandlers e s).1.connectivity = true := by
  cases e <;> simp_all [telnetHandlers]

theorem telnetAttempt_fail_auth (a : AttemptEnv) (s : ConnState) (e : Exc)
    (h : (telnetAttempt a s).2 = some e) :
    (telnetAttempt a s).1.authentication = s.authentication :=
  (telnetAttempt_fail a s e h).1

theorem telnetAttempt_fail_conn (a : AttemptEnv) (s : ConnState) (e : Exc)
    (h : (telnetAttempt a s).2 = some e) :
    (telnetAttempt a s).1.connectivity = s.connectivity :=
  (telnetAttempt_fail a s e h).2

theorem telnetPhase_shape (env : Env) (s : ConnState) :
    (telnetPhase env s).o4.isSome = true ∧
    ((telnetPhase env s).o5.isSome = true ↔
      (telnetPhase env s).o4 = some (some Exc.netmikoAuth)) ∧
    (telnetPhase env s).t1 = some s.password ∧
    ((telnetPhase env s).o5.isSome = true → (telnetPhase env s).t2 = some s.password) := by
  simp only [telnetPhase]
  repeat' split
  all_goals simp_all

theorem telnetPhase_pa (env : Env) (s : ConnState)
    (h : s.privileged = true → s.authorization = true) :
    (telnetPhase env s).s.privileged = true → (telnetPhase env s).s.authorization = true := by
  have hp1 := telnetAttempt_pa env.telnet1 s h
  have hp2 := telnetAttempt_pa env.telnet2 (telnetAttempt env.telnet1 s).1 hp1
  simp only [telnetPhase]
  repeat' split
  all_goals first
    | simpa using hp1
    | simpa using hp2
    | (simp only [telnetHandlers_privileged, telnetHandlers_authorization]
       first | exact hp1 | exact hp2)

theorem telnetPhase_q (env : Env) (s : ConnState)
    (h : s.authentication = true → s.connectivity = true) :
    (telnetPhase env s).s.authentication = true → (telnetPhase env s).s.connectivity = true := by
  cases h1 : (telnetAttempt env.telnet1 s).2 with
  | none =>
    simp only [telnetPhase, h1]
    intro _
    exact (telnetAttempt_ok _ _ h1).2
  | some e1 =>
    have hq1 : (telnetAttempt env.telnet1 s).1.authentication = true →
        (telnetAttempt env.telnet1 s).1.connectivity = true := by
      rw [telnetAttempt_fail_auth _ _ _ h1, telnetAttempt_fail_conn _ _ _ h1]
      exact h
    by_cases hna : e1 = Exc.netmikoAuth
    · subst hna
      cases h2 : (telnetAttempt env.telnet2 (telnetAttempt env.telnet1 s).1).2 with
      | none =>
        simp only [telnetPhase, h1, h2]
        intro _
        exact (telnetAttempt_ok _ _ h2).2
      | some e2 =>
        simp only [telnetPhase, h1, h2]
        refine telnetHandlers_q _ _ ?_
        rw [telnetAttempt_fail_auth _ _ _ h2, telnetAttempt_fail_conn _ _ _ h2]
        exact hq1
    · cases e1 <;> first
        | exact absurd rfl hna
        | (simp only [telnetPhase, h1]
           exact telnetHandlers_q _ _ hq1)

theorem telnetPhase_c6 (env : Env) (s : ConnState) (hauth : s.authentication = false) :
    (telnetPhase env s).s.authentication = true → (telnetPhase env s).s.exc = s.exc := by
  simp only [telnetPhase]
  repeat' split
  all_goals simp_all [telnetAttempt_fail_auth]

theorem telnetPhase_c7 (env : Env) (s : ConnState) (u : Exc)
    (ho : (telnetPhase env s).o4 = some (some u))
    (hh : telnetHandled u = true) (hna : u ≠ Exc.netmikoAuth) :
    (telnetPhase env s).err = none ∧
    (telnetPhase env s).s.exc = excName u ∧
    (telnetPhase env s).s.authentication = s.authentication ∧
    (telnetPhase env s).s.connectivity = s.connectivity := by
  cases h1 : (telnetAttempt env.telnet1 s).2 with
  | none => simp [telnetPhase, h1] at ho
  | some e1 =>
    by_cases he : e1 = Exc.netmikoAuth
    · subst he
      cases h2 : (telnetAttempt env.telnet2 (telnetAttempt env.telnet1 s).1).2 with
      | none => simp only [telnetPhase, h1, h2] at ho; simp at ho; exact absurd ho.symm hna
      | some e2 => simp only [telnetPhase, h1, h2] at ho; simp at ho; exact absurd ho.symm hna
    · have hred : telnetPhase env s =
          ⟨(telnetHandlers e1 (telnetAttempt env.telnet1 s).1).1,
           (telnetHandlers e1 (telnetAttempt env.telnet1 s).1).2,
           some (some e1), none, some s.password, none⟩ := by
        cases e1 <;> first
          | exact absurd rfl he
          | simp only [telnetPhase, h1]
      rw [hred] at ho ⊢
      have hu : u = e1 := by simpa using ho.symm
      subst hu
      have hhs := telnetHandlers_handled u (telnetAttempt env.telnet1 s).1 hh
      refine ⟨hhs.1, hhs.2, ?_, ?_⟩
      · rw [telnetHandlers_authentication]
        exact telnetAttempt_fail_auth _ _ _ h1
      · rw [telnetHandlers_conn_other _ _ hna]
        exact telnetAttempt_fail_conn _ _ _ h1

theorem Connection_init_pa (args : Args) (env : Env) :
    (Connection_init args env).s.privileged = true →
    (Connection_init args env).s.authorization = true := by
  have h0 : (initState args).privileged = true → (initState args).authorization = true := by
    simp [initState]
  have hc1 := sshChain_pa env (initState args) h0
  cases hc : (sshChain env (initState args)).err with
  | none =>
    simp only [Connection_init, hc]
    simpa using hc1
  | some e =>
    by_cases hf : inSSHFallTuple e = true
    · simp only [Connection_init, hc, hf, if_true]
      exact telnetPhase_pa env _ hc1
    · by_cases ho : isOSErr e = true
      · simp only [Connection_init, hc, hf, ho]
        simpa using hc1
      · simp only [Connection_init, hc, hf, ho]
        simpa using hc1

theorem Connection_init_q (args : Args) (env : Env) :
    (Connection_init args env).s.authentication = true →
    (Connection_init args env).s.connectivity = true := by
  have hfl := sshChain_flags env (initState args)
  have hA : (sshChain env (initState args)).s.authentication = false := by
    rw [hfl.1]; simp [initState]
  cases hc : (sshChain env (initState args)).err with
  | none =>
    simp only [Connection_init, hc]
    intro _
    simp
  | some e =>
    by_cases hf : inSSHFallTuple e = true
    · simp only [Connection_init, hc, hf, if_true]
      exact telnetPhase_q env _ (by rw [hA]; intro h'; cases h')
    · by_cases ho : isOSErr e = true
      · have hfa : (Connection_init args env).s.authentication = false := by
          simp [Connection_init, hc, hf, ho, hA]
        simp [hfa]
      · have hfa : (Connection_init args env).s.authentication = false := by
          simp [Connection_init, hc, hf, ho, hA]
        simp [hfa]

theorem Connection_init_auth_exc (args : Args) (env : Env) :
    (Connection_init args env).s.authentication = true →
    (Connection_init args env).s.exc = "None" := by
  have hfl := sshChain_flags env (initState args)
  have hA : (sshChain env (initState args)).s.authentication = false := by
    rw [hfl.1]; simp [initState]
  have hE : (sshChain env (initState args)).s.exc = "None" := by
    rw [hfl.2.2.1]; simp [initState]
  cases hc : (sshChain env (initState args)).err with
  | none =>
    simp only [Connection_init, hc]
    intro _
    simpa using hE
  | some e =>
    by_cases hf : inSSHFallTuple e = true
    · simp only [Connection_init, hc, hf, if_true]
      intro hx
      rw [telnetPhase_c6 env _ hA hx]
      exact hE
    · by_cases ho : isOSErr e = true
      · have hfa : (Connection_init args env).s.authentication = false := by
          simp [Connection_init, hc, hf, ho, hA]
        simp [hfa]
      · have hfa : (Connection_init args env).s.authentication = false := by
          simp [Connection_init, hc, hf, ho, hA]
        simp [hfa]

theorem Connection_init_o1 (args : Args) (env : Env) :
    (Connection_init args env).o1 = (sshChain env (initState args)).o1 := by
  cases hc : (sshChain env (initState args)).err with
  | none => simp [Connection_init, hc]
  | some e =>
    by_cases hf : inSSHFallTuple e = true
    · simp [Connection_init, hc, hf]
    · by_cases ho : isOSErr e = true <;> simp [Connection_init, hc, hf, ho]

theorem Connection_init_o2 (args : Args) (env : Env) :
    (Connection_init args env).o2 = (sshChain env (initState args)).o2 := by
  cases hc : (sshChain env (initState args)).err with
  | none => simp [Connection_init, hc]
  | some e =>
    by_cases hf : inSSHFallTuple e = true
    · simp [Connection_init, hc, hf]
    · by_cases ho : isOSErr e = true <;> simp [Connection_init, hc, hf, ho]

theorem Connection_init_o3 (args : Args) (env : Env) :
    (Connection_init args env).o3 = (sshChain env (initState args)).o3 := by
  cases hc : (sshChain env (initState args)).err with
  | none => simp [Connection_init, hc]
  | some e =>
    by_cases hf : inSSHFallTuple e = true
    · simp [Connection_init, hc, hf]
    · by_cases ho : isOSErr e = true <;> simp [Connection_init, hc, hf, ho]

theorem Connection_init_sshOK (args : Args) (env : Env)
    (hc : (sshChain env (initState args)).err = none) :
    (Connection_init args env).o4 = none ∧ (Connection_init args env).o5 = none ∧
    (Connection_init args env).raised = none ∧
    (Connection_init args env).s =
      { (sshChain env (initState args)).s with
        authentication := true, connectivity := true, con_type := some "SSH" } := by
  simp [Connection_init, hc]

theorem Connection_init_telnet (args : Args) (env : Env) (e : Exc)
    (hc : (sshChain env (initState args)).err = some e)
    (hf : inSSHFallTuple e = true) :
    (Connection_init args env).o4 = (telnetPhase env (sshChain env (initState args)).s).o4 ∧
    (Connection_init args env).o5 = (telnetPhase env (sshChain env (initState args)).s).o5 ∧
    (Connection_init args env).raised = (telnetPhase env (sshChain env (initState args)).s).err ∧
    (Connection_init args env).s = (telnetPhase env (sshChain env (initState args)).s).s ∧
    (Connection_init args env).t1secret = (telnetPhase env (sshChain env (initState args)).s).t1 ∧
    (Connection_init args env).t2secret = (telnetPhase env (sshChain env (initState args)).s).t2 := by
  simp [Connection_init, hc, hf]

theorem Connection_init_os (args : Args) (env : Env) (e : Exc)
    (hc : (sshChain env (initState args)).err = some e)
    (hf : inSSHFallTuple e = false) (ho : isOSErr e = true) :
    (Connection_init args env).o4 = none ∧ (Connection_init args env).o5 = none ∧
    (Connection_init args env).raised = none ∧
    (Connection_init args env).s =
      { (sshChain env (initState args)).s with exc := "OSError" } := by
  simp [Connection_init, hc, hf, ho]

theorem Connection_init_log (args : Args) (env : Env) (e : Exc)
    (hc : (sshChain env (initState args)).err = some e)
    (hf : inSSHFallTuple e = false) (ho : isOSErr e = false) :
    (Connection_init args env).o4 = none ∧ (Connection_init args env).o5 = none ∧
    (Connection_init args env).raised = none ∧
    (Connection_init args env).s = (sshChain env (initState args)).s := by
  simp [Connection_init, hc, hf, ho]

/-- Parsed `show version` output of the concrete test device. -/
def f0 : SVFields :=
  ⟨"host1", "15.2", "rom1", "hw1", "sn1", "7.0", "sys1"⟩

/-- A fully successful attempt environment: connect, enable and every
command succeed, `show run` is accepted. -/
def attemptOK : AttemptEnv :=
  { connect := none, enableCmd := none, showVersion := .ok (.parsedOut f0),
    showSysinfo := .ok (.parsedOut f0), showInventory := .ok none,
    showRun := .ok false }

/-- Like `attemptOK`, but the device rejects `show run` with the
`Invalid input detected` signature. -/
def attemptInvalidRun : AttemptEnv := { attemptOK with showRun := .ok true }

/-- An attempt whose `ConnectHandler` call raises `e`. -/
def attemptConnRaise (e : Exc) : AttemptEnv := { attemptOK with connect := some e }

/-- An attempt whose `show run` command raises `e` (after `show version`
succeeded and authorization was recorded). -/
def attemptRunRaise (e : Exc) : AttemptEnv := { attemptOK with showRun := .err e }

/-- Concrete constructor arguments with no enable secret. -/
def args0 : Args :=
  { devicetype := "autodetect", enable := false, enable_pw := "",
    ip_address := "10.0.0.1", username := "u", password := "pw" }

/-- Concrete constructor arguments with an explicit enable secret. -/
def argsVaultEn : Args := { args0 with enable := true, enable_pw := "vault" }

/-- Environment where step 1 succeeds fully. -/
def envSuccess : Env :=
  ⟨.ok "cisco_ios", attemptOK, attemptOK, attemptOK, attemptOK, attemptOK⟩

/-- Environment where step 1 authorizes but the device rejects `show run`:
the privilege-escalation path of `device_check`. -/
def envC3 : Env :=
  ⟨.ok "cisco_ios", attemptInvalidRun, attemptOK, attemptOK, attemptOK, attemptOK⟩

/-- Environment where step 1 records authorization and then `show run`
raises a netmiko timeout; the telnet attempt times out as well. -/
def envC1cex : Env :=
  ⟨.ok "cisco_ios", attemptRunRaise .netmikoTimeout, attemptOK, attemptOK,
   attemptConnRaise .netmikoTimeout, attemptOK⟩

/-- Environment where autodetection raises an exception matched only by the
final logging `except Exception` clause. -/
def envC6cex : Env :=
  ⟨.err .otherExc, attemptOK, attemptOK, attemptOK, attemptOK, attemptOK⟩

/-- Environment where step 1 is refused and the telnet attempt raises a
plain host-level `OSError`. -/
def envC7cex : Env :=
  ⟨.err .connectionRefused, attemptOK, attemptOK, attemptOK,
   attemptConnRaise .osError, attemptOK⟩

/-- Environment where step 1 times out and the telnet attempt is refused. -/
def envC7w : Env :=
  ⟨.err .netmikoTimeout, attemptOK, attemptOK, attemptOK,
   attemptConnRaise .connectionRefused, attemptOK⟩

/-- Environment where SSH is refused and telnet succeeds fully. -/
def envC2cex : Env :=
  ⟨.err .connectionRefused, attemptOK, attemptOK, attemptOK, attemptOK, attemptOK⟩

/-- C10: constructing a `Connection` raises `MissingArgument` exactly when
one of `ip_address`, `username`, `password` is absent, while `device_type`,
`enable` and `enable_pw` are optional with defaults `autodetect`, `False`
and the empty string. -/
theorem C10_required_args (k : Kwargs) :
    ((∃ m, parseArgs k = Except.error m) ↔
      (k.ip_address = none ∨ k.username = none ∨ k.password = none)) ∧
    (∀ a, parseArgs k = Except.ok a →
      ((k.device_type = none → a.devicetype = "autodetect") ∧
       (k.enable = none → a.enable = false) ∧
       (k.enable_pw = none → a.enable_pw = ""))) := by
  rcases k with ⟨dt, en, ep, ip, un, pw⟩
  cases ip <;> cases un <;> cases pw <;> cases dt <;> cases en <;> cases ep <;>
    simp [parseArgs]

/-- Witness for C10 at a concrete keyword dictionary: all three optional
keys absent resolve to their defaults. -/
theorem C10_witness :
    ∀ a, parseArgs ⟨none, none, none, some "10.0.0.1", some "u", some "pw"⟩ =
        Except.ok a →
      a.devicetype = "autodetect" ∧ a.enable = false ∧ a.enable_pw = "" := by
  intro a ha
  have h := (C10_required_args ⟨none, none, none, some "10.0.0.1", some "u", some "pw"⟩).2 a ha
  exact ⟨h.1 rfl, h.2.1 rfl, h.2.2 rfl⟩

/-- C9 counterexample: a terminal Connection state whose negotiation never
opened a session has `privileged == false`, yet `send_config_set` returns
the silent no-session result instead of raising `NoConfigPriv`, refuting
`raises NoPrivilege whenever the session is not privileged`. -/
theorem C9_counterexample :
    (Connection_init args0 envC6cex).s.privileged = false ∧
    send_config_set (Connection_init args0 envC6cex).s (fun _ => "out")
        ["snmp-server community x"] = ConfigResult.noSession :=
  ⟨rfl, rfl⟩

/-- C9 (amended): when a session object exists, `send_config_set` raises
`NoConfigPriv` if the session is not privileged and otherwise runs the
command list and returns the transport output; with no session object the
method body is `pass` and nothing is raised. -/
theorem C9_amended (s : ConnState) (tOut : List String → String) (cfg : List String) :
    (s.sess ≠ Sess.noSess → s.privileged = false →
      send_config_set s tOut cfg = ConfigResult.noPrivErr) ∧
    (s.sess ≠ Sess.noSess → s.privileged = true →
      send_config_set s tOut cfg = ConfigResult.ran (tOut cfg)) ∧
    (s.sess = Sess.noSess → send_config_set s tOut cfg = ConfigResult.noSession) := by
  cases h : s.sess <;> simp [send_config_set, h] <;>
    (intro hp) <;> simp [hp]

/-- Witness for C9 (amended) on a concrete privileged session. -/
theorem C9_witness :
    send_config_set (Connection_init args0 envSuccess).s (fun _ => "done")
        ["hostname r1"] = ConfigResult.ran "done" := by
  have h := C9_amended (Connection_init args0 envSuccess).s (fun _ => "done")
    ["hostname r1"]
  exact h.2.1 (by decide) (by decide)

/-- C3: the privilege-escalation retry the claim describes does not happen.
On a device that authorizes but rejects `show run`, the negotiator sets
`enable`, attaches the enable secret, disconnects the session — and then
`device_check` breaks out of its loop (its `while True:` body ends in
`break` on every path), so the constructor terminates with
`privileged == false` and a disconnected session still reported as
authorized and authenticated. -/
theorem C3_no_reentry :
    (Connection_init args0 envC3).raised = none ∧
    (Connection_init args0 envC3).s.authorization = true ∧
    (Connection_init args0 envC3).s.authentication = true ∧
    (Connection_init args0 envC3).s.enable = true ∧
    (Connection_init args0 envC3).s.secret = some "" ∧
    (Connection_init args0 envC3).s.sess = Sess.closed ∧
    (Connection_init args0 envC3).s.privileged = false :=
  ⟨rfl, rfl, rfl, rfl, rfl, rfl, rfl⟩

/-- C1 counterexample: a terminal state with `authorization == true` but
`authentication == false` — `show run` raised a netmiko timeout after
authorization had been recorded, the telnet fallback timed out, and the
flags are never reset between fallback steps. -/
theorem C1_counterexample :
    (Connection_init args0 envC1cex).raised = none ∧
    (Connection_init args0 envC1cex).s.authorization = true ∧
    (Connection_init args0 envC1cex).s.authentication = false :=
  ⟨rfl, rfl, rfl⟩

/-- C1 (amended): at every terminal state of the negotiation,
`privileged` implies `authorization` and `authentication` implies
`connectivity`; the middle link of the claimed chain,
`authorization` implies `authentication`, does not hold (see the
counterexample). -/
theorem C1_amended (args : Args) (env : Env)
    (hterm : (Connection_init args env).raised = none) :
    ((Connection_init args env).s.privileged = true →
      (Connection_init args env).s.authorization = true) ∧
    ((Connection_init args env).s.authentication = true →
      (Connection_init args env).s.connectivity = true) :=
  ⟨Connection_init_pa args env, Connection_init_q args env⟩

/-- Witness for C1 (amended) at a concrete terminal state. -/
theorem C1_witness :
    ((Connection_init args0 envSuccess).s.privileged = true →
      (Connection_init args0 envSuccess).s.authorization = true) ∧
    ((Connection_init args0 envSuccess).s.authentication = true →
      (Connection_init args0 envSuccess).s.connectivity = true) :=
  C1_amended args0 envSuccess rfl

/-- C6 counterexample: an exception matched only by the logging
`except Exception` clause terminates the negotiation with
`authentication == false` and `failure_kind` still the none value, so both
of the claim's alternatives hold and `exactly one` is refuted. -/
theorem C6_counterexample :
    (Connection_init args0 envC6cex).raised = none ∧
    (Connection_init args0 envC6cex).s.authentication = false ∧
    (Connection_init args0 envC6cex).s.exc = "None" :=
  ⟨rfl, rfl, rfl⟩

/-- C6 (amended): at every terminal state at least one of the two
conditions holds: a session that authenticates never carries a failure
classification.  The converse direction of the claim fails — a session
that never authenticates can terminate with `failure_kind` still the none
value (see the counterexample). -/
theorem C6_amended (args : Args) (env : Env)
    (hterm : (Connection_init args env).raised = none) :
    (Connection_init args env).s.authentication = true →
    (Connection_init args env).s.exc = "None" :=
  Connection_init_auth_exc args env

/-- Witness for C6 (amended) at a concrete authenticated terminal state. -/
theorem C6_witness : (Connection_init args0 envSuccess).s.exc = "None" :=
  C6_amended args0 envSuccess rfl rfl

/-- C7 counterexample: SSH step 1 is refused (unreachable-class) and the
telnet step raises a plain host-level `OSError` (also unreachable-class),
yet there is no terminal Connection state: the `OSError` escapes the
constructor and no failure classification is recorded. -/
theorem C7_counterexample :
    isUnreachable Exc.connectionRefused = true ∧
    isUnreachable Exc.osError = true ∧
    (Connection_init args0 envC7cex).o1 = some (some Exc.connectionRefused) ∧
    (Connection_init args0 envC7cex).o4 = some (some Exc.osError) ∧
    (Connection_init args0 envC7cex).raised = some Exc.osError ∧
    (Connection_init args0 envC7cex).s.exc = "None" :=
  ⟨rfl, rfl, rfl, rfl, rfl, rfl⟩

/-- C7 (amended): if step 1 raises an unreachable-class error, and whenever
the telnet step is attempted it raises an unreachable-class error the telnet
handlers recognise (any of them except a plain `OSError`), then the
constructor terminates normally with `authentication == false`,
`connectivity == false`, and the recorded failure classification is the
class name of the last attempted step's error — an Unreachable-family
string, not an aggregate over steps.  A plain `OSError` from the telnet
step instead escapes the constructor (see the counterexample). -/
theorem C7_amended (args : Args) (env : Env) (u1 : Exc)
    (h1 : (Connection_init args env).o1 = some (some u1))
    (hu1 : isUnreachable u1 = true)
    (h2 : ∀ oe, (Connection_init args env).o4 = some oe →
      ∃ u2, oe = some u2 ∧ isUnreachable u2 = true ∧ u2 ≠ Exc.osError) :
    (Connection_init args env).raised = none ∧
    (Connection_init args env).s.authentication = false ∧
    (Connection_init args env).s.connectivity = false ∧
    (Connection_init args env).s.exc ∈ unreachableStrs ∧
    (∀ u2, (Connection_init args env).o4 = some (some u2) →
      (Connection_init args env).s.exc = excName u2) ∧
    ((Connection_init args env).o4 = none →
      (Connection_init args env).s.exc = "OSError") := by
  have hS := sshChain_shape env (initState args)
  have hfl := sshChain_flags env (initState args)
  have hA : (sshChain env (initState args)).s.authentication = false := by
    rw [hfl.1]; simp [initState]
  have hCn : (sshChain env (initState args)).s.connectivity = false := by
    rw [hfl.2.1]; simp [initState]
  have ho1 : (sshChain env (initState args)).o1 = some (some u1) := by
    rw [← Connection_init_o1]; exact h1
  have hdet : inDetectTuple u1 = false := by
    cases u1 <;> simp_all [isUnreachable, inDetectTuple]
  have hF4 := hS.2.2.2.1 u1 ho1 hdet
  cases hc : (sshChain env (initState args)).err with
  | none =>
    rw [hc] at hF4
    exact absurd hF4.1 (by simp)
  | some e =>
    have heu : e = u1 := by
      rw [hc] at hF4
      exact Option.some.inj hF4.1
    subst heu
    by_cases hf : inSSHFallTuple e = true
    · obtain ⟨hto4, hto5, htr, hts, ht1, ht2⟩ := Connection_init_telnet args env e hc hf
      have hT := telnetPhase_shape env (sshChain env (initState args)).s
      obtain ⟨oe, hoe⟩ :
          ∃ oe, (telnetPhase env (sshChain env (initState args)).s).o4 = some oe := by
        cases hx : (telnetPhase env (sshChain env (initState args)).s).o4 with
        | none => rw [hx] at hT; exact absurd hT.1 (by simp)
        | some oe => exact ⟨oe, rfl⟩
      obtain ⟨u2, hoe2, hu2, hnos⟩ := h2 oe (by rw [hto4]; exact hoe)
      subst hoe2
      have hna : u2 ≠ Exc.netmikoAuth := by
        cases u2 <;> simp_all [isUnreachable]
      have hh : telnetHandled u2 = true := by
        cases u2 <;> simp_all [isUnreachable, telnetHandled]
      have hc7 := telnetPhase_c7 env (sshChain env (initState args)).s u2 hoe hh hna
      refine ⟨?_, ?_, ?_, ?_, ?_, ?_⟩
      · rw [htr]; exact hc7.1
      · rw [hts, hc7.2.2.1]; exact hA
      · rw [hts, hc7.2.2.2]; exact hCn
      · rw [hts, hc7.2.1]
        cases u2 <;> simp_all [excName, unreachableStrs, isUnreachable]
      · intro u2' hu2'
        rw [hto4, hoe] at hu2'
        have hq : u2' = u2 := by
          have := Option.some.inj hu2'
          exact (Option.some.inj this).symm
        subst hq
        rw [hts]; exact hc7.2.1
      · intro hnone
        rw [hto4, hoe] at hnone
        exact absurd hnone (by simp)
    · by_cases ho : isOSErr e = true
      · obtain ⟨hto4, hto5, htr, hts⟩ :=
          Connection_init_os args env e hc (by simpa using hf) ho
        refine ⟨htr, ?_, ?_, ?_, ?_, ?_⟩
        · rw [hts]; simpa using hA
        · rw [hts]; simpa using hCn
        · rw [hts]; simp [unreachableStrs]
        · intro u2 h'
          rw [hto4] at h'
          exact absurd h' (by simp)
        · intro _
          rw [hts]
      · exfalso
        cases e <;> simp_all [isUnreachable, inSSHFallTuple, isOSErr]

/-- Witness for C7 (amended): SSH autodetection times out and the telnet
step is refused; the terminal classification is that of the refused telnet
step, the last one attempted. -/
theorem C7_witness :
    (Connection_init args0 envC7w).raised = none ∧
    (Connection_init args0 envC7w).s.exc = "ConnectionRefusedError" := by
  have h := C7_amended args0 envC7w Exc.netmikoTimeout rfl rfl
    (fun oe hoe => by
      refine ⟨Exc.connectionRefused, ?_, rfl, by simp⟩
      have hx := hoe
      rw [show (Connection_init args0 envC7w).o4 =
        some (some Exc.connectionRefused) from rfl] at hx
      exact (Option.some.inj hx).symm)
  refine ⟨h.1, ?_⟩
  have hlast := h.2.2.2.2.1 Exc.connectionRefused rfl
  rw [hlast]
  rfl

/-- C2 counterexample: an explicit enable secret (`vault`) is supplied, yet
the telnet step installs the login password (`pw`) as the enable secret —
the installation is unconditional, not `only if no explicit enable secret
was supplied`. -/
theorem C2_counterexample :
    argsVaultEn.enable_pw = "vault" ∧
    argsVaultEn.password = "pw" ∧
    (Connection_init argsVaultEn envC2cex).o4.isSome = true ∧
    (Connection_init argsVaultEn envC2cex).t1secret = some "pw" ∧
    (Connection_init argsVaultEn envC2cex).s.secret = some "pw" :=
  ⟨rfl, rfl, rfl, rfl, rfl⟩

/-- C2 (amended): the transports are attempted in exactly the claimed
order with the claimed triggers — (1) SSH with autodetection, always;
(2) forced-SSH exactly when step 1 raised a value/EOF-class error;
(3) forced-SSH again exactly when step 2 raised a value/EOF-class error;
(4) telnet exactly when the error escaping the SSH chain is one of the
recoverable connection/auth/value classes; (5) one telnet retry exactly
when step 4 raised the authentication-specific error.  In step 4 the login
password is installed as the enable secret unconditionally, overwriting
any explicitly supplied enable secret (see the counterexample). -/
theorem C2_amended (args : Args) (env : Env) :
    (Connection_init args env).o1.isSome = true ∧
    ((Connection_init args env).o2.isSome = true ↔
      (∃ e, (Connection_init args env).o1 = some (some e) ∧ inDetectTuple e = true)) ∧
    ((Connection_init args env).o3.isSome = true ↔
      (∃ e, (Connection_init args env).o2 = some (some e) ∧ inDetectTuple e = true)) ∧
    ((Connection_init args env).o4.isSome = true ↔
      ((∃ e, (Connection_init args env).o1 = some (some e) ∧ inDetectTuple e = false ∧
        inSSHFallTuple e = true) ∨
       (∃ e, (Connection_init args env).o2 = some (some e) ∧ inDetectTuple e = false ∧
        inSSHFallTuple e = true) ∨
       (∃ e, (Connection_init args env).o3 = some (some e) ∧
        inSSHFallTuple e = true))) ∧
    ((Connection_init args env).o5.isSome = true ↔
      (Connection_init args env).o4 = some (some Exc.netmikoAuth)) ∧
    ((Connection_init args env).o4.isSome = true →
      (Connection_init args env).t1secret = some args.password) ∧
    ((Connection_init args env).o5.isSome = true →
      (Connection_init args env).t2secret = some args.password) := by
  have hS := sshChain_shape env (initState args)
  have hfl := sshChain_flags env (initState args)
  have hpw : (sshChain env (initState args)).s.password = args.password := by
    rw [hfl.2.2.2]; simp [initState]
  cases hc : (sshChain env (initState args)).err with
  | none =>
    obtain ⟨h4, h5, hr, hs⟩ := Connection_init_sshOK args env hc
    rw [Connection_init_o1, Connection_init_o2, Connection_init_o3, h4, h5]
    refine ⟨hS.1, hS.2.1, hS.2.2.1, ?_, by simp, by simp, by simp⟩
    constructor
    · intro hx; cases hx
    · rintro (⟨e, he, hd, hfall⟩ | ⟨e, he, hd, hfall⟩ | ⟨e, he, hfall⟩)
      · have h' := (hS.2.2.2.1 e he hd).1
        rw [hc] at h'; cases h'
      · have h' := (hS.2.2.2.2.1 e he hd).1
        rw [hc] at h'; cases h'
      · have h' := hS.2.2.2.2.2.1 e he
        rw [hc] at h'; cases h'
  | some e =>
    by_cases hf : inSSHFallTuple e = true
    · obtain ⟨h4, h5, hr, hs, h1s, h2s⟩ := Connection_init_telnet args env e hc hf
      have hT := telnetPhase_shape env (sshChain env (initState args)).s
      have hF9 := hS.2.2.2.2.2.2.2 e hc
      rw [Connection_init_o1, Connection_init_o2, Connection_init_o3, h4, h5, h1s, h2s]
      refine ⟨hS.1, hS.2.1, hS.2.2.1, ?_, hT.2.1, ?_, ?_⟩
      · constructor
        · intro _
          rcases hF9 with h3 | ⟨h3n, h2e⟩ | ⟨h3n, h2n, h1e⟩
          · exact Or.inr (Or.inr ⟨e, h3, hf⟩)
          · have hdf : inDetectTuple e = false := by
              by_contra hdt
              have hx := (hS.2.2.1).2 ⟨e, h2e, by simpa using hdt⟩
              rw [h3n] at hx; cases hx
            exact Or.inr (Or.inl ⟨e, h2e, hdf, hf⟩)
          · have hdf : inDetectTuple e = false := by
              by_contra hdt
              have hx := (hS.2.1).2 ⟨e, h1e, by simpa using hdt⟩
              rw [h2n] at hx; cases hx
            exact Or.inl ⟨e, h1e, hdf, hf⟩
        · intro _; exact hT.1
      · intro _
        rw [hT.2.2.1, hpw]
      · intro h5s
        rw [hT.2.2.2 h5s, hpw]
    · have hno : (Connection_init args env).o4 = none ∧
          (Connection_init args env).o5 = none := by
        by_cases ho : isOSErr e = true
        · have h := Connection_init_os args env e hc (by simpa using hf) ho
          exact ⟨h.1, h.2.1⟩
        · have h := Connection_init_log args env e hc (by simpa using hf)
            (by simpa using ho)
          exact ⟨h.1, h.2.1⟩
      rw [Connection_init_o1, Connection_init_o2, Connection_init_o3, hno.1, hno.2]
      refine ⟨hS.1, hS.2.1, hS.2.2.1, ?_, by simp, by simp, by simp⟩
      constructor
      · intro hx; cases hx
      · rintro (⟨e', he', hd', hfall'⟩ | ⟨e', he', hd', hfall'⟩ | ⟨e', he', hfall'⟩)
        · have h' := (hS.2.2.2.1 e' he' hd').1
          rw [hc] at h'
          have hee : e = e' := Option.some.inj h'
          rw [← hee] at hfall'
          exact absurd hfall' hf
        · have h' := (hS.2.2.2.2.1 e' he' hd').1
          rw [hc] at h'
          have hee : e = e' := Option.some.inj h'
          rw [← hee] at hfall'
          exact absurd hfall' hf
        · have h' := hS.2.2.2.2.2.1 e' he'
          rw [hc] at h'
          have hee : e = e' := Option.some.inj h'
          rw [← hee] at hfall'
          exact absurd hfall' hf

/-- Witness for C2 (amended): with SSH timed out, the telnet step is
attempted and carries the login password as its installed enable secret. -/
theorem C2_witness :
    (Connection_init args0 envC7w).t1secret = some "pw" := by
  have h := C2_amended args0 envC7w
  exact h.2.2.2.2.2.1 rfl

/-- C4 counterexample: after the no-privilege-required signal the target is
downgraded and the Negotiator re-runs, but on the next pass the caller's
function is not invoked: even though the second pass authorizes and the
function would return `ok`, the target lands in `failed_devices` with the
`NoConfigPriv` exception and `outputs` stays empty. -/
theorem C4_counterexample :
    (runConnection args0 "10.0.0.1"
      [⟨envC3, FnRes.noPriv⟩, ⟨envC3, FnRes.ok "ok"⟩] (initLoop String)).outputs = [] ∧
    (runConnection args0 "10.0.0.1"
      [⟨envC3, FnRes.noPriv⟩, ⟨envC3, FnRes.ok "ok"⟩]
        (initLoop String)).failed.length = 1 ∧
    (runConnection args0 "10.0.0.1"
      [⟨envC3, FnRes.noPriv⟩, ⟨envC3, FnRes.ok "ok"⟩]
        (initLoop String)).failed.map FailRecord.exc = ["NoConfigPriv"] :=
  ⟨rfl, rfl, rfl⟩

/-- C4 (amended): the no-privilege-required signal marks the target as
permanently downgraded and the loop re-runs the Negotiator; on any later
pass the downgraded target is treated as failed, not usable: independent of
what the caller's function would do, the pass appends a failure record with
exception `NoConfigPriv` (carrying the session's flags, including
`privileged`) and the task ends. -/
theorem C4_amended {α : Type} (args : Args) (ip : String) (a : LoopAttempt α)
    (st : LoopState α) (hr : (Connection_init args a.env).raised = none) :
    (st.no_config_priv = true →
      connectionStep args ip a st =
        { st with
          failed := st.failed ++
            [failRecord ip { (Connection_init args a.env).s with exc := "NoConfigPriv" }],
          done := true }) ∧
    (st.no_config_priv = false → (Connection_init args a.env).s.authorization = true →
      a.fn = FnRes.noPriv →
      connectionStep args ip a st = { st with no_config_priv := true }) := by
  constructor
  · intro hncp
    simp [connectionStep, hr, hncp]
  · intro hncp hauth hfn
    simp [connectionStep, hr, hncp, hauth, hfn]

/-- Witness for C4 (amended): a concrete downgraded pass appends the
`NoConfigPriv` failure record although the function would have succeeded. -/
theorem C4_witness :
    connectionStep args0 "10.0.0.1" (⟨envC3, FnRes.ok "ok"⟩ : LoopAttempt String)
        { no_config_priv := true, outputs := [], successful := [], failed := [],
          done := false } =
      { no_config_priv := true, outputs := [], successful := [],
        failed := [failRecord "10.0.0.1"
          { (Connection_init args0 envC3).s with exc := "NoConfigPriv" }],
        done := true } := by
  have h := C4_amended args0 "10.0.0.1" (⟨envC3, FnRes.ok "ok"⟩ : LoopAttempt String)
    { no_config_priv := true, outputs := [], successful := [], failed := [],
      done := false } rfl
  exact h.1 rfl

/-- C5 counterexample: an unrecognised exception from the caller's function
leaves the loop state unchanged — but the task does not end: the loop
re-runs the whole Negotiator, and a later pass can still succeed and record
output, contradicting `the task then ends`. -/
theorem C5_counterexample :
    connectionStep args0 "10.0.0.1" (⟨envSuccess, FnRes.err⟩ : LoopAttempt String)
        (initLoop String) = initLoop String ∧
    (runConnection args0 "10.0.0.1"
      [⟨envSuccess, FnRes.err⟩, ⟨envSuccess, FnRes.ok "ok"⟩]
        (initLoop String)).outputs.length = 1 :=
  ⟨rfl, rfl⟩

/-- C5 (amended): any exception other than the two recognised signals —
whether raised by the caller's function or by the Connection constructor
inside the task — is caught and logged and leaves the three shared result
collections and the loop state completely unchanged; the task does not
end, however: the `while True:` loop re-runs the entire Negotiator, without
bound if the failure repeats. -/
theorem C5_amended {α : Type} (args : Args) (ip : String) (a : LoopAttempt α)
    (st : LoopState α) :
    ((Connection_init args a.env).raised.isSome = true →
      connectionStep args ip a st = st) ∧
    (a.fn = FnRes.err → (Connection_init args a.env).raised = none →
      (Connection_init args a.env).s.authorization = true →
      st.no_config_priv = false →
      connectionStep args ip a st = st) := by
  constructor
  · intro hr
    cases hx : (Connection_init args a.env).raised with
    | none => rw [hx] at hr; cases hr
    | some e => simp [connectionStep, hx]
  · intro hfn hr hauth hncp
    simp [connectionStep, hr, hauth, hncp, hfn]

/-- Witness for C5 (amended) on a concrete erroring pass. -/
theorem C5_witness :
    connectionStep args0 "10.0.0.2" (⟨envSuccess, FnRes.err⟩ : LoopAttempt String)
        (initLoop String) = initLoop String := by
  have h := C5_amended args0 "10.0.0.2" (⟨envSuccess, FnRes.err⟩ : LoopAttempt String)
    (initLoop String)
  exact h.2 rfl rfl rfl rfl

/-- C8: a target whose caller's function signals retry on every invoked
pass leaves the loop state exactly at its initial value after any finite
number of passes: nothing is ever appended to `outputs`,
`successful_devices` or `failed_devices`, the loop never terminates on its
own (no retry cap), and each pass re-runs the entire Negotiator. -/
theorem C8_retry_unbounded {α : Type} (args : Args) (ip : String)
    (tr : List (LoopAttempt α))
    (h : ∀ a ∈ tr, a.fn = FnRes.forceRetry ∧
      (Connection_init args a.env).raised = none ∧
      (Connection_init args a.env).s.authorization = true) :
    runConnection args ip tr (initLoop α) = initLoop α := by
  induction tr with
  | nil => rfl
  | cons a rest ih =>
    have ha := h a (List.mem_cons_self a rest)
    have hstep : connectionStep args ip a (initLoop α) = initLoop α := by
      simp [connectionStep, ha.2.1, ha.2.2, ha.1, initLoop]
    rw [runConnection, if_neg (by simp [initLoop]), hstep]
    exact ih fun b hb => h b (List.mem_cons_of_mem a hb)

/-- Witness for C8 at a concrete two-pass always-retry trace. -/
theorem C8_witness :
    runConnection args0 "10.0.0.1"
      [⟨envSuccess, FnRes.forceRetry⟩, ⟨envSuccess, FnRes.forceRetry⟩]
      (initLoop String) = initLoop String := by
  apply C8_retry_unbounded
  intro a ha
  simp only [List.mem_cons, List.mem_singleton] at ha
  rcases ha with rfl | rfl | h
  · exact ⟨rfl, rfl, rfl⟩
  · exact ⟨rfl, rfl, rfl⟩
  · cases h

end NetAsync
